import Mathlib

/-!
Verification of the SSE proxy service (`src/proxy/main.py`).

The file gives a shallow embedding of the streaming relay endpoint
`proxy_semantic_search_stream` (in particular its inner async generator
`generate`, lines 72-118) and of the non-streaming lookup endpoint
`proxy_get_workflow` (lines 150-194), together with theorems about the
behaviour of those embeddings.

Modelling decisions, recorded once here:

* Byte strings (`bytes` in Python) are modelled as `List Nat`, one entry
  per byte.  `str.encode` with encoding utf-8 is modelled by an explicit
  UTF-8 encoder `utf8Encode`.
* An exception raised by the httpx client is one of three shapes,
  mirroring the `except` clauses of the source: `httpx.TimeoutException`,
  `httpx.RequestError` (caught only when it is not a TimeoutException,
  because the `except httpx.TimeoutException` clause comes first and, in
  httpx, TimeoutException is a subclass of RequestError), and any other
  `Exception`.  Each carries its `str(e)` message.
* The behaviour of one upstream invocation is a value of
  `UpstreamBehavior`: either the call fails before a response is obtained
  (`connectFail`), or a response is obtained carrying an optional
  content-encoding header and a finite list of raw body chunks, after
  which the body iterator either finishes cleanly or raises
  (`connected`, with `termination`).
* Python async generators are lazy: calling `generate()` produces a
  generator object without executing any line of its body; the body only
  runs when the StreamingResponse iterates it, which happens after the
  response headers have been fixed and sent.  The embedding of
  `proxy_semantic_search_stream` therefore reads the closure variable
  `content_encoding` in its initial state `none` when it builds the outer
  response headers (source lines 120-129), and the value the variable
  reaches once the generator body has actually run is modelled separately
  by `contentEncodingAfterBody` (source line 88).
* Each item yielded by `generate` is tagged with its yield site:
  `OutItem.forwarded` for the pass-through `yield chunk` at line 103 and
  `OutItem.synthetic` for the `yield error_event.encode('utf-8')` in the
  except clauses (lines 110, 114, 118).  The payload bytes are kept
  exactly as yielded.
* JSON values (for the non-streaming endpoint, which calls
  `response.json()` and `JSONResponse(content=...)`) are modelled by a
  small inductive `Json`.
* JSON well-formedness of a text payload (needed to analyse the
  hand-interpolated error events) is defined by an executable
  recursive-descent parser for the RFC 8259 grammar, written here; the
  Python source contains no such parser, the grammar is the standard one.
-/

/-- One byte. -/
abbrev Byte := Nat

/-- A Python bytes value: a finite sequence of bytes. -/
abbrev Bytes := List Byte

/-- UTF-8 encoding of a single character (standard UTF-8, 1 to 4 bytes). -/
def utf8EncodeChar (c : Char) : Bytes :=
  let n := c.toNat
  if n < 0x80 then [n]
  else if n < 0x800 then
    [0xC0 ||| (n >>> 6), 0x80 ||| (n &&& 0x3F)]
  else if n < 0x10000 then
    [0xE0 ||| (n >>> 12), 0x80 ||| ((n >>> 6) &&& 0x3F), 0x80 ||| (n &&& 0x3F)]
  else
    [0xF0 ||| (n >>> 18), 0x80 ||| ((n >>> 12) &&& 0x3F),
     0x80 ||| ((n >>> 6) &&& 0x3F), 0x80 ||| (n &&& 0x3F)]

/-- Model of Python's `s.encode('utf-8')`. -/
def utf8Encode (s : String) : Bytes :=
  s.data.flatMap utf8EncodeChar

/-- The shape of an exception raised inside the relay's `try` block,
as discriminated by the source's `except` clauses (`src/proxy/main.py`
lines 107-118 and 177-194).  `timeoutException` stands for
`httpx.TimeoutException`, `requestError` for an `httpx.RequestError`
that is not a TimeoutException, `otherException` for any other
`Exception`.  Each constructor carries the exception text `str(e)`. -/
inductive Exc where
  | timeoutException (msg : String)
  | requestError (msg : String)
  | otherException (msg : String)
deriving DecidableEq, Repr

/-- The three failure classes of the spec's error taxonomy. -/
inductive ErrorKind where
  | timeout
  | connection_error
  | internal_error
deriving DecidableEq, Repr

/-- Which `except` clause of `src/proxy/main.py` (lines 107-118) catches a
given exception: `httpx.TimeoutException` is tried first, then
`httpx.RequestError`, then bare `Exception`.  The clause chosen is the
failure classification. -/
def classify : Exc → ErrorKind
  | .timeoutException _ => .timeout
  | .requestError _ => .connection_error
  | .otherException _ => .internal_error

/-- The fixed timeout error event text built at line 109:
`event: error` / `data: {"message": "Request timeout"}` followed by a
blank line.  The caught exception is not interpolated. -/
def timeoutErrorEvent : String :=
  "event: error\ndata: \x7b\"message\": \"Request timeout\"\x7d\n\n"

/-- The connection error event text built at line 113, interpolating
`str(e)` directly after the fixed prefix `Connection error: `. -/
def connectionErrorEvent (msg : String) : String :=
  "event: error\ndata: \x7b\"message\": \"Connection error: " ++ msg ++ "\"\x7d\n\n"

/-- The catch-all error event text built at line 117, interpolating
`str(e)` directly into the message field. -/
def internalErrorEvent (msg : String) : String :=
  "event: error\ndata: \x7b\"message\": \"" ++ msg ++ "\"\x7d\n\n"

/-- The `data:` payload of an interpolated error event: the text between
`data: ` and the terminating blank line of `internalErrorEvent`. -/
def dataPayload (msg : String) : String :=
  "\x7b\"message\": \"" ++ msg ++ "\"\x7d"

/-- The synthetic error event text produced for a caught exception,
following the except-clause order of lines 107-118. -/
def streamErrorEvent : Exc → String
  | .timeoutException _ => timeoutErrorEvent
  | .requestError m => connectionErrorEvent m
  | .otherException m => internalErrorEvent m

/-- The upstream streaming response as observed by the relay: the
`content-encoding` response header (line 88), the raw body chunks
delivered by `response.aiter_raw()` in arrival order, and how the body
iteration ends: `none` for a clean end of stream, `some e` when the
iteration raises `e` after the listed chunks were delivered. -/
structure UpstreamResponse where
  contentEncoding : Option String
  chunks : List Bytes
  termination : Option Exc
deriving DecidableEq, Repr

/-- The behaviour of one upstream invocation: either
`client.stream(...)` fails before any response is obtained
(`connectFail`), or a response is obtained (`connected`). -/
inductive UpstreamBehavior where
  | connectFail (e : Exc)
  | connected (resp : UpstreamResponse)
deriving DecidableEq, Repr

/-- One item yielded by the `generate` async generator, tagged with the
yield site that produced it: `forwarded` for the pass-through
`yield chunk` (line 103), `synthetic` for the error event yields in the
except clauses (lines 110, 114, 118).  The field holds the bytes exactly
as yielded. -/
inductive OutItem where
  | forwarded (chunk : Bytes)
  | synthetic (event : Bytes)
deriving DecidableEq, Repr

/-- The bytes an item contributes to the outer response body. -/
def OutItem.bytes : OutItem → Bytes
  | .forwarded c => c
  | .synthetic b => b

/-- Whether an item is a synthetic error event. -/
def OutItem.isSynthetic : OutItem → Bool
  | .forwarded _ => false
  | .synthetic _ => true

/-- Whether an item is a forwarded upstream chunk. -/
def OutItem.isForwarded : OutItem → Bool
  | .forwarded _ => true
  | .synthetic _ => false

/-- The pass-through loop of lines 98-103:
`async for chunk in response.aiter_raw(): if chunk: yield chunk`.
A chunk is yielded unchanged when it is non-empty (`if chunk:` is the
Python truthiness test on bytes); an empty chunk is skipped and the loop
moves on to the next chunk. -/
def forwardChunks : List Bytes → List OutItem
  | [] => []
  | c :: rest =>
    if c.isEmpty then forwardChunks rest
    else .forwarded c :: forwardChunks rest

/-- The full output sequence of one run of the `generate` async generator
(lines 72-118) on a given upstream behaviour.  When the upstream call
fails before a response is obtained, the matching except clause yields a
single synthetic event.  When a response is obtained, the loop forwards
the delivered non-empty chunks in order; if the body iteration then
raises, the exception propagates out of the loop into the matching
except clause, which yields one synthetic event, after which the
generator body ends. -/
def generate (b : UpstreamBehavior) : List OutItem :=
  match b with
  | .connectFail e => [.synthetic (utf8Encode (streamErrorEvent e))]
  | .connected resp =>
    forwardChunks resp.chunks ++
      (match resp.termination with
       | none => []
       | some e => [.synthetic (utf8Encode (streamErrorEvent e))])

/-- The outer streamed response returned by the endpoint: the
`Content-Encoding` header value placed on the response (if any), the
media type, and the body items produced when the response body is
iterated. -/
structure StreamingResponseModel where
  contentEncoding : Option String
  mediaType : String
  body : List OutItem
deriving DecidableEq, Repr

/-- The endpoint `proxy_semantic_search_stream` (lines 50-135) for a
request whose body parses as JSON, run against a given upstream
behaviour.  The closure variable `content_encoding` is initialised to
`None` at line 70.  The response headers are built at lines 120-129 and
the `if content_encoding:` test at line 128 runs before the
`StreamingResponse` is constructed at line 131, hence before any line of
the lazy async generator `generate` has executed; the variable is still
`None` there, whatever the upstream later sends.  The generator is
iterated afterwards, producing the body. -/
def proxy_semantic_search_stream (b : UpstreamBehavior) : StreamingResponseModel :=
  let content_encoding : Option String := none
  { contentEncoding := content_encoding
    mediaType := "text/event-stream"
    body := generate b }

/-- The value the closure variable `content_encoding` holds after the
generator body has run: line 88 assigns
`response.headers.get('content-encoding')` as soon as the upstream
response is obtained; on a connect failure the assignment is never
reached. -/
def contentEncodingAfterBody (b : UpstreamBehavior) : Option String :=
  match b with
  | .connectFail _ => none
  | .connected resp => resp.contentEncoding

/-- A JSON value, for the bodies of the non-streaming lookup endpoint. -/
inductive Json where
  | null
  | bool (b : Bool)
  | num (n : Int)
  | str (s : String)
  | arr (elems : List Json)
  | obj (fields : List (String × Json))

/-- The behaviour of the bounded GET performed by `proxy_get_workflow`
(line 165): either a response arrives, with its status code and JSON
body (as decoded by `response.json()`), or the call raises. -/
inductive FetchBehavior where
  | success (status : Nat) (body : Json)
  | failure (e : Exc)

/-- The endpoint `proxy_get_workflow` (lines 150-194) as a map from the
upstream fetch behaviour to the returned (status code, JSON body) pair.
On success the upstream body and status are returned as-is (lines
172-175); the except clauses map a timeout to 504, another request error
to 502 with the transport error text interpolated after
`Connection error: `, and any other exception to 500 with `str(e)`
(lines 177-194). -/
def proxy_get_workflow (b : FetchBehavior) : Nat × Json :=
  match b with
  | .success status body => (status, body)
  | .failure (.timeoutException _) => (504, .obj [("error", .str "Request timeout")])
  | .failure (.requestError m) => (502, .obj [("error", .str ("Connection error: " ++ m))])
  | .failure (.otherException m) => (500, .obj [("error", .str m)])

/-- JSON insignificant whitespace (RFC 8259 section 2). -/
def isJsonWs (c : Char) : Bool :=
  c = ' ' ∨ c = '\n' ∨ c = '\r' ∨ c = '\t'

/-- Skip insignificant whitespace. -/
def skipWs (l : List Char) : List Char :=
  l.dropWhile isJsonWs

/-- Hexadecimal digit test, for `\u` escapes. -/
def isHexDigitChar (c : Char) : Bool :=
  c.isDigit ∨ ('a' ≤ c ∧ c ≤ 'f') ∨ ('A' ≤ c ∧ c ≤ 'F')

/-- Parse the remainder of a JSON string literal, the opening quote
already consumed; returns the input after the closing quote.  Unescaped
control characters (U+0000 to U+001F) are not allowed inside a string
(RFC 8259 section 7); the escapes are the eight single-character escapes
and `\uXXXX`. -/
def parseStringRest : List Char → Option (List Char)
  | [] => none
  | c :: rest =>
    if c = '"' then some rest
    else if c = '\\' then
      match rest with
      | [] => none
      | d :: rest2 =>
        if d = '"' ∨ d = '\\' ∨ d = '/' ∨ d = 'b' ∨ d = 'f' ∨ d = 'n' ∨ d = 'r' ∨ d = 't' then
          parseStringRest rest2
        else if d = 'u' then
          match rest2 with
          | h1 :: h2 :: h3 :: h4 :: rest3 =>
            if isHexDigitChar h1 ∧ isHexDigitChar h2 ∧ isHexDigitChar h3 ∧ isHexDigitChar h4 then
              parseStringRest rest3
            else none
          | _ => none
        else none
    else if c.toNat < 0x20 then none
    else parseStringRest rest

/-- Parse the fraction and exponent parts of a JSON number, the integer
part already consumed. -/
def parseNumTail (l : List Char) : Option (List Char) :=
  let afterFrac : Option (List Char) :=
    match l with
    | '.' :: r =>
      if (r.takeWhile Char.isDigit).isEmpty then none
      else some (r.dropWhile Char.isDigit)
    | _ => some l
  match afterFrac with
  | none => none
  | some l2 =>
    match l2 with
    | [] => some []
    | c :: r =>
      if c = 'e' ∨ c = 'E' then
        let r2 := match r with
                  | s :: r' => if s = '+' ∨ s = '-' then r' else s :: r'
                  | [] => []
        if (r2.takeWhile Char.isDigit).isEmpty then none
        else some (r2.dropWhile Char.isDigit)
      else some (c :: r)

/-- Parse a JSON number (RFC 8259 section 6): optional minus, integer
part with no leading zero, optional fraction, optional exponent. -/
def parseNumber (l : List Char) : Option (List Char) :=
  let l1 := match l with
            | '-' :: r => r
            | _ => l
  match l1 with
  | [] => none
  | c :: r =>
    if c = '0' then parseNumTail r
    else if c.isDigit then parseNumTail (r.dropWhile Char.isDigit)
    else none

mutual

/-- Parse one JSON value (RFC 8259), fuel-bounded; returns the remaining
input after the value.  The fuel only bounds the nesting of the
recursive-descent; `isValidJson` supplies fuel ample for its input. -/
def parseValue : Nat → List Char → Option (List Char)
  | 0, _ => none
  | fuel + 1, l =>
    match skipWs l with
    | [] => none
    | c :: r =>
      if c = '"' then parseStringRest r
      else if c = '\x7b' then
        match skipWs r with
        | [] => none
        | d :: r2 =>
          if d = '\x7d' then some r2
          else parseMembers fuel (d :: r2)
      else if c = '[' then
        match skipWs r with
        | [] => none
        | d :: r2 =>
          if d = ']' then some r2
          else parseElements fuel (d :: r2)
      else if c = 't' then
        match r with
        | 'r' :: 'u' :: 'e' :: r2 => some r2
        | _ => none
      else if c = 'f' then
        match r with
        | 'a' :: 'l' :: 's' :: 'e' :: r2 => some r2
        | _ => none
      else if c = 'n' then
        match r with
        | 'u' :: 'l' :: 'l' :: r2 => some r2
        | _ => none
      else parseNumber (c :: r)

/-- Parse one or more `string : value` members of a JSON object and the
closing brace; returns the remaining input. -/
def parseMembers : Nat → List Char → Option (List Char)
  | 0, _ => none
  | fuel + 1, l =>
    match skipWs l with
    | [] => none
    | c :: r =>
      if c = '"' then
        match parseStringRest r with
        | none => none
        | some r2 =>
          match skipWs r2 with
          | [] => none
          | d0 :: r3 =>
            if d0 = ':' then
              match parseValue fuel r3 with
              | none => none
              | some r4 =>
                match skipWs r4 with
                | [] => none
                | d :: r5 =>
                  if d = ',' then parseMembers fuel r5
                  else if d = '\x7d' then some r5
                  else none
            else none
      else none

/-- Parse one or more elements of a JSON array and the closing bracket;
returns the remaining input. -/
def parseElements : Nat → List Char → Option (List Char)
  | 0, _ => none
  | fuel + 1, l =>
    match parseValue fuel l with
    | none => none
    | some r =>
      match skipWs r with
      | [] => none
      | d :: r2 =>
        if d = ',' then parseElements fuel r2
        else if d = ']' then some r2
        else none

end

/-- A text is well-formed JSON when it is exactly one JSON value,
possibly surrounded by whitespace. -/
def isValidJson (s : String) : Bool :=
  match parseValue (s.data.length + 1) s.data with
  | some rest => (skipWs rest).isEmpty
  | none => false

theorem skipWs_cons (c : Char) (l : List Char) (h : isJsonWs c = false) :
    skipWs (c :: l) = c :: l := by
  simp [skipWs, List.dropWhile_cons, h]

theorem skipWs_cons_ws (c : Char) (l : List Char) (h : isJsonWs c = true) :
    skipWs (c :: l) = skipWs l := by
  simp [skipWs, List.dropWhile_cons, h]

theorem parseStringRest_cons_plain (c : Char) (l : List Char)
    (h1 : c ≠ '"') (h2 : c ≠ '\\') (h3 : 0x20 ≤ c.toNat) :
    parseStringRest (c :: l) = parseStringRest l := by
  have hlt : ¬ (c.toNat < 0x20) := by omega
  rw [parseStringRest.eq_def]
  dsimp only
  rw [if_neg h1, if_neg h2, if_neg hlt]

theorem parseStringRest_quote (l : List Char) :
    parseStringRest ('"' :: l) = some l := by
  rw [parseStringRest.eq_def]
  dsimp only
  simp

theorem parseStringRest_plain (m : List Char) :
    ∀ rest : List Char, (∀ c ∈ m, c ≠ '"' ∧ c ≠ '\\' ∧ 0x20 ≤ c.toNat) →
    parseStringRest (m ++ '"' :: rest) = some rest := by
  induction m with
  | nil => intro rest _; simpa using parseStringRest_quote rest
  | cons c tail ih =>
    intro rest h
    obtain ⟨h1, h2, h3⟩ := h c (List.mem_cons_self c tail)
    rw [List.cons_append, parseStringRest_cons_plain c _ h1 h2 h3]
    exact ih rest (fun x hx => h x (List.mem_cons_of_mem _ hx))

theorem parseKeyMessage (rest : List Char) :
    parseStringRest ('m' :: 'e' :: 's' :: 's' :: 'a' :: 'g' :: 'e' :: '"' :: rest) = some rest := by
  rw [parseStringRest_cons_plain _ _ (by decide) (by decide) (by decide),
      parseStringRest_cons_plain _ _ (by decide) (by decide) (by decide),
      parseStringRest_cons_plain _ _ (by decide) (by decide) (by decide),
      parseStringRest_cons_plain _ _ (by decide) (by decide) (by decide),
      parseStringRest_cons_plain _ _ (by decide) (by decide) (by decide),
      parseStringRest_cons_plain _ _ (by decide) (by decide) (by decide),
      parseStringRest_cons_plain _ _ (by decide) (by decide) (by decide),
      parseStringRest_quote]

theorem dataPayload_data (m : String) :
    (dataPayload m).data =
      '\x7b' :: '"' :: 'm' :: 'e' :: 's' :: 's' :: 'a' :: 'g' :: 'e' :: '"' :: ':' :: ' ' :: '"' ::
        (m.data ++ ['"', '\x7d']) := by
  simp [dataPayload, String.data_append]

theorem parseValue_dataPayload (m : String) (n : Nat)
    (h : ∀ c ∈ m.data, c ≠ '"' ∧ c ≠ '\\' ∧ 0x20 ≤ c.toNat) :
    parseValue (n + 3) ((dataPayload m).data) = some [] := by
  rw [dataPayload_data]
  rw [show n + 3 = (n + 2) + 1 from rfl]
  rw [parseValue.eq_def]
  dsimp only
  rw [skipWs_cons _ _ (by decide)]
  dsimp only
  rw [if_neg (by decide), if_pos rfl]
  rw [skipWs_cons _ _ (by decide)]
  dsimp only
  rw [if_neg (by decide)]
  rw [show n + 2 = (n + 1) + 1 from rfl]
  rw [parseMembers.eq_def]
  dsimp only
  rw [skipWs_cons _ _ (by decide)]
  dsimp only
  rw [if_pos rfl]
  rw [parseKeyMessage]
  dsimp only
  rw [skipWs_cons _ _ (by decide)]
  dsimp only
  rw [if_pos rfl]
  rw [show n + 1 = n + 0 + 1 from rfl]
  rw [parseValue.eq_def]
  dsimp only
  rw [skipWs_cons_ws _ _ (by decide), skipWs_cons _ _ (by decide)]
  dsimp only
  rw [if_pos rfl]
  rw [parseStringRest_plain m.data ['\x7d'] h]
  dsimp only
  rw [skipWs_cons _ _ (by decide)]
  dsimp only
  rw [if_neg (by decide), if_pos rfl]

theorem isValidJson_dataPayload (m : String)
    (h : ∀ c ∈ m.data, c ≠ '"' ∧ c ≠ '\\' ∧ 0x20 ≤ c.toNat) :
    isValidJson (dataPayload m) = true := by
  unfold isValidJson
  have hx : (dataPayload m).data.length + 1 = (m.data.length + 13) + 3 := by
    rw [dataPayload_data]; simp
  rw [hx, parseValue_dataPayload m _ h]
  rfl

theorem forwardChunks_eq_filter (l : List Bytes) :
    forwardChunks l = (l.filter (fun c => !c.isEmpty)).map OutItem.forwarded := by
  induction l with
  | nil => rfl
  | cons c rest ih =>
    by_cases h : c.isEmpty
    · simp [forwardChunks, h, ih]
    · simp [forwardChunks, h, ih]

theorem forwardChunks_flatten (l : List Bytes) :
    ((forwardChunks l).map OutItem.bytes).flatten = l.flatten := by
  induction l with
  | nil => rfl
  | cons c rest ih =>
    by_cases h : c.isEmpty
    · have hc : c = [] := List.isEmpty_iff.mp h
      simp [forwardChunks, h, hc, ih]
    · simp [forwardChunks, h, OutItem.bytes, ih]

theorem forwardChunks_length_le (l : List Bytes) :
    (forwardChunks l).length ≤ l.length := by
  rw [forwardChunks_eq_filter, List.length_map]
  exact List.length_filter_le _ l

theorem forwardChunks_no_synthetic (l : List Bytes) :
    (forwardChunks l).all (fun x => !x.isSynthetic) = true := by
  rw [forwardChunks_eq_filter]
  simp only [List.all_eq_true, List.mem_map, List.mem_filter]
  rintro x ⟨y, _, rfl⟩
  rfl

theorem string_eq_of_data (a b : String) (h : a.data = b.data) : a = b := by
  cases a; cases b; exact congrArg String.mk h

theorem forwardChunks_filter_synthetic (l : List Bytes) :
    (forwardChunks l).filter (fun x => x.isSynthetic) = [] := by
  rw [forwardChunks_eq_filter]
  rw [List.filter_eq_nil_iff]
  rintro x hx
  obtain ⟨y, _, rfl⟩ := List.mem_map.mp hx
  simp [OutItem.isSynthetic]

theorem all_dropLast {α : Type} (l : List α) (p : α → Bool) (h : l.all p = true) :
    l.dropLast.all p = true := by
  rw [List.all_eq_true] at h ⊢
  intro x hx
  exact h x ((List.dropLast_sublist l).subset hx)

theorem forwardChunks_all_items (l : List Bytes) :
    (forwardChunks l).all (fun x => x.isForwarded && !x.bytes.isEmpty) = true := by
  rw [forwardChunks_eq_filter]
  rw [List.all_eq_true]
  rintro x hx
  obtain ⟨y, hy, rfl⟩ := List.mem_map.mp hx
  have hne : (!y.isEmpty) = true := (List.mem_filter.mp hy).2
  simp [OutItem.isForwarded, OutItem.bytes, hne]

/-- C1: the source intends (comment at line 127 and the capture at line
88) to mirror the upstream's `Content-Encoding` header onto the outer
response, but the async generator that captures it is lazy, so the
`if content_encoding:` check at line 128 always sees the initial `None`:
even for an upstream response carrying `Content-Encoding: gzip`, the
outer streamed response carries no `Content-Encoding` header at all,
although the closure variable does receive the value once the body has
run.  The third conjunct shows the header is absent for every upstream
behaviour. -/
theorem claimC1_content_encoding_never_forwarded :
    (proxy_semantic_search_stream
        (.connected ⟨some "gzip", [[104, 105]], none⟩)).contentEncoding = none ∧
    contentEncodingAfterBody (.connected ⟨some "gzip", [[104, 105]], none⟩) = some "gzip" ∧
    (∀ b : UpstreamBehavior, (proxy_semantic_search_stream b).contentEncoding = none) :=
  ⟨rfl, rfl, fun _ => rfl⟩

/-- C2: for every upstream behaviour, the relay's output sequence
contains at most one synthetic error event and every item before the
last one is a forwarded chunk, so a synthetic event can only be the
final item; and when the body iteration fails after some chunks were
delivered, the output is exactly the forwarded chunks followed by one
terminal synthetic event. -/
theorem claimC2_terminal_once :
    (∀ b : UpstreamBehavior,
      ((generate b).filter (fun x => x.isSynthetic)).length ≤ 1 ∧
      (generate b).dropLast.all (fun x => !x.isSynthetic) = true) ∧
    (∀ (ce : Option String) (chunks : List Bytes) (e : Exc),
      generate (.connected ⟨ce, chunks, some e⟩) =
        forwardChunks chunks ++ [.synthetic (utf8Encode (streamErrorEvent e))]) := by
  constructor
  · intro b
    match b with
    | .connectFail e => exact ⟨by simp [generate, OutItem.isSynthetic], by simp [generate]⟩
    | .connected ⟨ce, chunks, none⟩ =>
      constructor
      · simp only [generate, List.append_nil, forwardChunks_filter_synthetic]
        simp
      · simp only [generate, List.append_nil]
        exact all_dropLast _ _ (forwardChunks_no_synthetic chunks)
    | .connected ⟨ce, chunks, some e⟩ =>
      constructor
      · simp only [generate, List.filter_append, forwardChunks_filter_synthetic]
        simp [OutItem.isSynthetic]
      · simp only [generate, List.dropLast_concat]
        exact forwardChunks_no_synthetic chunks
  · intro ce chunks e
    rfl

/-- C3: when the upstream call fails with a timeout before any response
is obtained, the relay produces exactly one output item, the UTF-8
encoding of the fixed text
`event: error(NL)data: {"message": "Request timeout"}(NL)(NL)`, and
nothing after it; the caught exception's own message is not
interpolated (the output is the same for every `msg`). -/
theorem claimC3_connect_timeout_single_fixed_event (msg : String) :
    generate (.connectFail (.timeoutException msg)) =
      [OutItem.synthetic (utf8Encode
        "event: error\ndata: \x7b\"message\": \"Request timeout\"\x7d\n\n")] :=
  rfl

/-- C4: the lookup endpoint returns the upstream status and JSON body
verbatim on success, 504 with `{"error": "Request timeout"}` on
timeout, 502 with an error body whose text extends the transport error
text on connection failure, and 500 with the stringified error
otherwise. -/
theorem claimC4_lookup_status_mapping :
    (∀ (status : Nat) (body : Json),
      proxy_get_workflow (.success status body) = (status, body)) ∧
    (∀ msg : String, proxy_get_workflow (.failure (.timeoutException msg)) =
      (504, Json.obj [("error", Json.str "Request timeout")])) ∧
    (∀ msg : String, ∃ pre : String,
      proxy_get_workflow (.failure (.requestError msg)) =
        (502, Json.obj [("error", Json.str (pre ++ msg))])) ∧
    (∀ msg : String, proxy_get_workflow (.failure (.otherException msg)) =
      (500, Json.obj [("error", Json.str msg)])) :=
  ⟨fun _ _ => rfl, fun _ => rfl, fun _ => ⟨"Connection error: ", rfl⟩, fun _ => rfl⟩

/-- C5 counterexample: with upstream chunks `[104]`, `[]`, `[105]` and a
clean end of stream, the relay does not yield each upstream chunk: the
empty chunk is dropped (the `if chunk:` guard at line 100), so the
output is the two non-empty chunks, not the three upstream chunks. -/
theorem claimC5_counterexample :
    generate (.connected ⟨none, [[104], [], [105]], none⟩) =
      [OutItem.forwarded [104], OutItem.forwarded [105]] ∧
    generate (.connected ⟨none, [[104], [], [105]], none⟩) ≠
      ([[104], [], [105]] : List Bytes).map OutItem.forwarded := by
  exact ⟨rfl, by decide⟩

/-- C5 (amended): on a cleanly terminating upstream stream the relay
yields exactly the non-empty upstream chunks, in arrival order and
byte-for-byte unchanged, with empty chunks skipped, and the sequence
ends there with no trailing marker. -/
theorem claimC5_success_passthrough (ce : Option String) (chunks : List Bytes) :
    generate (.connected ⟨ce, chunks, none⟩) =
      (chunks.filter (fun c => !c.isEmpty)).map OutItem.forwarded := by
  simp [generate, forwardChunks_eq_filter]

/-- C6 counterexample: when the body iteration raises after a chunk was
already forwarded, the output of one request contains both a forwarded
chunk and a synthetic error event, so the two output forms are mixed. -/
theorem claimC6_counterexample :
    ((generate (.connected ⟨none, [[104]], some (.otherException "boom")⟩)).any
        (fun x => x.isForwarded) = true) ∧
    ((generate (.connected ⟨none, [[104]], some (.otherException "boom")⟩)).any
        (fun x => x.isSynthetic) = true) := by
  exact ⟨by decide, by decide⟩

/-- C6 (amended): every output of the relay is a sequence of forwarded
chunks either left as-is (clean completion) or followed by exactly one
trailing synthetic error event (failure); a pre-response failure is the
special case with zero forwarded chunks.  The two forms mix only in
that order, with the synthetic event strictly last. -/
theorem claimC6_output_shape (b : UpstreamBehavior) :
    (∃ cs : List Bytes, generate b = cs.map OutItem.forwarded) ∨
    (∃ (cs : List Bytes) (e : Exc),
      generate b = cs.map OutItem.forwarded ++
        [OutItem.synthetic (utf8Encode (streamErrorEvent e))]) := by
  match b with
  | .connectFail e => exact Or.inr ⟨[], e, by simp [generate]⟩
  | .connected ⟨ce, chunks, none⟩ =>
    exact Or.inl ⟨chunks.filter (fun c => !c.isEmpty),
      by simp [generate, forwardChunks_eq_filter]⟩
  | .connected ⟨ce, chunks, some e⟩ =>
    exact Or.inr ⟨chunks.filter (fun c => !c.isEmpty), e,
      by simp [generate, forwardChunks_eq_filter]⟩

/-- C7: a non-timeout request error is caught by the
`except httpx.RequestError` clause, classified `connection_error`; the
synthetic event's text contains the transport error text, and the event
is the last item of the output, both when the failure happens before
any response and when it happens mid-stream. -/
theorem claimC7_connection_error_event (msg : String) :
    classify (.requestError msg) = ErrorKind.connection_error ∧
    generate (.connectFail (.requestError msg)) =
      [OutItem.synthetic (utf8Encode (connectionErrorEvent msg))] ∧
    (∀ (ce : Option String) (chunks : List Bytes),
      generate (.connected ⟨ce, chunks, some (.requestError msg)⟩) =
        forwardChunks chunks ++ [OutItem.synthetic (utf8Encode (connectionErrorEvent msg))]) ∧
    (∃ pre suf : String, connectionErrorEvent msg = pre ++ msg ++ suf) :=
  ⟨rfl, rfl, fun _ _ => rfl,
    ⟨"event: error\ndata: \x7b\"message\": \"Connection error: ", "\"\x7d\n\n", rfl⟩⟩

/-- C8: the failure classification and the error outputs are
deterministic functions of the exception: equal exceptions give equal
classifications, equal stream outputs and equal lookup responses; and
the classification depends only on the exception's shape, not on its
message text. -/
theorem claimC8_deterministic_classification :
    (∀ e₁ e₂ : Exc, e₁ = e₂ →
      classify e₁ = classify e₂ ∧
      generate (.connectFail e₁) = generate (.connectFail e₂) ∧
      proxy_get_workflow (.failure e₁) = proxy_get_workflow (.failure e₂)) ∧
    (∀ m₁ m₂ : String,
      classify (.timeoutException m₁) = classify (.timeoutException m₂) ∧
      classify (.requestError m₁) = classify (.requestError m₂) ∧
      classify (.otherException m₁) = classify (.otherException m₂)) := by
  constructor
  · rintro e₁ e₂ rfl
    exact ⟨rfl, rfl, rfl⟩
  · intro m₁ m₂
    exact ⟨rfl, rfl, rfl⟩

/-- Witness for C8 at a concrete exception. -/
theorem claimC8_witness :
    classify (.requestError "connection refused") = classify (.requestError "connection refused") ∧
    generate (.connectFail (.requestError "connection refused")) =
      generate (.connectFail (.requestError "connection refused")) ∧
    proxy_get_workflow (.failure (.requestError "connection refused")) =
      proxy_get_workflow (.failure (.requestError "connection refused")) :=
  claimC8_deterministic_classification.1
    (.requestError "connection refused") (.requestError "connection refused") rfl

/-- C9 counterexample: a message consisting of one tab character has no
double-quote, backslash or newline, yet the interpolated data payload
`{"message": "<TAB>"}` is not well-formed JSON, because an unescaped
control character inside a JSON string is forbidden by the grammar. -/
theorem claimC9_counterexample :
    (∀ c ∈ "\t".data, c ≠ '"' ∧ c ≠ '\\' ∧ c ≠ '\n') ∧
    isValidJson (dataPayload "\t") = false := by
  exact ⟨by decide, by decide⟩

/-- C9 (amended): the catch-all error event embeds the exception text
into the fixed template with no JSON escaping; the resulting data
payload is well-formed JSON whenever the message contains no
double-quote, no backslash and no control character (U+0000 to U+001F,
which includes newline), and for some message containing a double quote
the payload is not valid JSON. -/
theorem claimC9_interpolated_payload :
    (∀ msg : String, streamErrorEvent (.otherException msg) =
        "event: error\ndata: " ++ dataPayload msg ++ "\n\n") ∧
    (∀ msg : String, (∀ c ∈ msg.data, c ≠ '"' ∧ c ≠ '\\' ∧ 0x20 ≤ c.toNat) →
      isValidJson (dataPayload msg) = true) ∧
    isValidJson (dataPayload "a\"b") = false := by
  refine ⟨?_, fun msg h => isValidJson_dataPayload msg h, by decide⟩
  intro msg
  apply string_eq_of_data
  simp [streamErrorEvent, internalErrorEvent, dataPayload, String.data_append]

/-- Witness for C9 (amended) at a concrete plain message. -/
theorem claimC9_witness :
    isValidJson (dataPayload "server exploded") = true :=
  claimC9_interpolated_payload.2.1 "server exploded" (by decide)

/-- C10: on a cleanly terminating upstream stream every yielded item is
a forwarded, non-empty chunk; the concatenation of the yielded bytes
equals the concatenation of the upstream chunk bytes; and the output
has at most as many items as upstream delivered chunks. -/
theorem claimC10_empty_chunks_skipped (ce : Option String) (chunks : List Bytes) :
    ((generate (.connected ⟨ce, chunks, none⟩)).all
        (fun x => x.isForwarded && !x.bytes.isEmpty) = true) ∧
    ((generate (.connected ⟨ce, chunks, none⟩)).map OutItem.bytes).flatten = chunks.flatten ∧
    (generate (.connected ⟨ce, chunks, none⟩)).length ≤ chunks.length := by
  refine ⟨?_, ?_, ?_⟩
  · simp only [generate, List.append_nil]
    exact forwardChunks_all_items chunks
  · simp only [generate, List.append_nil]
    exact forwardChunks_flatten chunks
  · simp only [generate, List.append_nil]
    exact forwardChunks_length_le chunks
